import Mathlib

set_option autoImplicit false

/-!
Shallow embedding of the inpainting editor component
(`src/src/components/Editor.tsx`).

Coordinates are modelled over `ℚ` (the source uses JS numbers; all the
claimed identities are exact algebraic facts about the transform code).
The React component state becomes an explicit `EditorState` record, the
pointer/wheel handlers become pure state transformers, and the
`onMaskChange` callback becomes an output list of mask snapshots emitted
by each step.
-/

/-- A 2-D point or vector with rational coordinates. -/
structure Vec2 where
  x : ℚ
  y : ℚ
deriving DecidableEq

/-- The active tool, `useState<"pan" | "draw">` in the source. -/
inductive Tool where
  | pan
  | draw
deriving DecidableEq

/-- The `tagName` classes the handlers test for (`BUTTON`, `INPUT`)
versus everything else. -/
inductive TargetKind where
  | canvasArea
  | buttonEl
  | inputEl
deriving DecidableEq

/-- One stroked path segment rendered into the mask surface:
`ctx.lineTo(x, y); ctx.lineWidth = brushSize / zoom; ctx.stroke()`
extends the current path from the previous point to `(x, y)` stroked at
the current line width. -/
structure Stroke where
  fromPt : Vec2
  toPt : Vec2
  width : ℚ
deriving DecidableEq

/-- A mouse event as the handlers read it: `button`, `target.tagName`,
`clientX`/`clientY`, and `movementX`/`movementY`. -/
structure MouseEv where
  button : ℕ
  target : TargetKind
  clientX : ℚ
  clientY : ℚ
  movementX : ℚ
  movementY : ℚ

/-- The reactive state of the `Editor` component, plus the ref/context
presence flags and the container's bounding-rect origin (fixed layout
inputs read by the handlers). -/
structure EditorState where
  zoom : ℚ
  position : Vec2
  isDragging : Bool
  isDrawing : Bool
  brushSize : ℚ
  activeTool : Tool
  hasContainer : Bool
  hasCanvas : Bool
  ctx : Bool
  hasCallback : Bool
  mask : List Stroke
  pathStart : Vec2
  rectLeft : ℚ
  rectTop : ℚ

/-- The component's initial state after mount: `useState` initializers
(zoom 1, position (0,0), flags false, brush 20, tool pan) and the mount
effect that installs the 2-D context. -/
def initState (rectLeft rectTop : ℚ) (hasCallback : Bool) : EditorState where
  zoom := 1
  position := ⟨0, 0⟩
  isDragging := false
  isDrawing := false
  brushSize := 20
  activeTool := Tool.pan
  hasContainer := true
  hasCanvas := true
  ctx := true
  hasCallback := hasCallback
  mask := []
  pathStart := ⟨0, 0⟩
  rectLeft := rectLeft
  rectTop := rectTop

/-- `handleWheel`: early return without a container ref; otherwise
`newZoom = Math.min(Math.max(0.1, zoom + -deltaY/1000), 5)` and the
cursor-anchoring offset update. -/
def handleWheel (s : EditorState) (deltaY clientX clientY : ℚ) : EditorState :=
  if s.hasContainer = false then s
  else
    let delta := -deltaY / 1000
    let newZoom := min (max (1/10) (s.zoom + delta)) 5
    let mouseX := clientX - s.rectLeft
    let mouseY := clientY - s.rectTop
    { s with
      position := ⟨mouseX - (mouseX - s.position.x) * (newZoom / s.zoom),
                   mouseY - (mouseY - s.position.y) * (newZoom / s.zoom)⟩
      zoom := newZoom }

/-- `getCanvasCoordinates`: returns `(0,0)` when either ref is missing,
otherwise the inverse pan/zoom transform of the container-relative
point. -/
def getCanvasCoordinates (s : EditorState) (clientX clientY : ℚ) : Vec2 :=
  if s.hasCanvas = false ∨ s.hasContainer = false then ⟨0, 0⟩
  else
    let containerX := clientX - s.rectLeft
    let containerY := clientY - s.rectTop
    ⟨(containerX - s.position.x) / s.zoom, (containerY - s.position.y) / s.zoom⟩

/-- The render transform applied to the image and canvas elements:
`translate(position.x px, position.y px) scale(zoom)` with
`transformOrigin: "0 0"`, mapping an image-space point to a
container-relative screen point. -/
def imageToScreen (s : EditorState) (p : Vec2) : Vec2 :=
  ⟨s.position.x + s.zoom * p.x, s.position.y + s.zoom * p.y⟩

/-- `handleMouseDown`: ignores non-left buttons and control targets;
Pan starts a drag; Draw (with a context) starts a stroke path at the
transformed coordinate. -/
def handleMouseDown (s : EditorState) (e : MouseEv) : EditorState :=
  if e.button ≠ 0 ∨ e.target = TargetKind.buttonEl ∨ e.target = TargetKind.inputEl then s
  else
    match s.activeTool with
    | Tool.pan => { s with isDragging := true }
    | Tool.draw =>
        if s.ctx = false then s
        else
          let p := getCanvasCoordinates s e.clientX e.clientY
          { s with isDrawing := true, pathStart := p }

/-- `handleMouseMove`: ignores control targets; while panning adds the
raw movement delta to the position; while drawing extends the path and
strokes it at width `brushSize / zoom`. -/
def handleMouseMove (s : EditorState) (e : MouseEv) : EditorState :=
  if e.target = TargetKind.buttonEl ∨ e.target = TargetKind.inputEl then s
  else if s.activeTool = Tool.pan ∧ s.isDragging = true then
    { s with position := ⟨s.position.x + e.movementX, s.position.y + e.movementY⟩ }
  else if s.activeTool = Tool.draw ∧ s.isDrawing = true ∧ s.ctx = true then
    let p := getCanvasCoordinates s e.clientX e.clientY
    { s with
      mask := s.mask ++ [⟨s.pathStart, p, s.brushSize / s.zoom⟩]
      pathStart := p }
  else s

/-- `handleMouseUp` (also wired to `onMouseLeave`): ends both gestures
and, when the canvas ref and the `onMaskChange` callback both exist,
exports the current mask snapshot (`canvas.toDataURL()`); the emitted
list records the callback invocations. -/
def handleMouseUp (s : EditorState) : EditorState × List (List Stroke) :=
  let s' := { s with isDragging := false, isDrawing := false }
  if s.hasCanvas = true ∧ s.hasCallback = true then (s', [s.mask]) else (s', [])

/-- `resetView`: zoom back to 1, position to the origin, and — when the
context and canvas exist — clear the whole mask buffer.  It invokes no
callback. -/
def resetView (s : EditorState) : EditorState × List (List Stroke) :=
  ({ s with
      zoom := 1
      position := ⟨0, 0⟩
      mask := if s.ctx = true ∧ s.hasCanvas = true then [] else s.mask }, [])

/-- The events the component reacts to: container wheel/pointer events,
the tool and brush controls, and the reset button. -/
inductive Event where
  | wheel (deltaY clientX clientY : ℚ)
  | mouseDown (e : MouseEv)
  | mouseMove (e : MouseEv)
  | mouseUp
  | mouseLeave
  | setTool (t : Tool)
  | setBrush (b : ℚ)
  | reset

/-- One event dispatch: the next state together with the list of
`onMaskChange` invocations (snapshots) it emitted. -/
def step (s : EditorState) : Event → EditorState × List (List Stroke)
  | Event.wheel d cx cy => (handleWheel s d cx cy, [])
  | Event.mouseDown e => (handleMouseDown s e, [])
  | Event.mouseMove e => (handleMouseMove s e, [])
  | Event.mouseUp => handleMouseUp s
  | Event.mouseLeave => handleMouseUp s
  | Event.setTool t => ({ s with activeTool := t }, [])
  | Event.setBrush b => ({ s with brushSize := b }, [])
  | Event.reset => resetView s

/-- Run a sequence of events, concatenating the emitted callback
invocations. -/
def run (s : EditorState) : List Event → EditorState × List (List Stroke)
  | [] => (s, [])
  | e :: es =>
      let p := step s e
      let q := run p.1 es
      (q.1, p.2 ++ q.2)

/-- The four pointer events of the gesture machine (no tool/brush/reset
actions). -/
def PointerEvent : Event → Prop
  | Event.mouseDown _ => True
  | Event.mouseMove _ => True
  | Event.mouseUp => True
  | Event.mouseLeave => True
  | _ => False

/-- The natural pixel dimensions of a decoded image. -/
structure ImageInfo where
  naturalWidth : ℕ
  naturalHeight : ℕ
deriving DecidableEq

/-- HTML `load` events fire on resource-loading elements such as `img`;
a `canvas` element never fires one.  The editor's natural-size handler
is attached as `onLoad` of the `canvas` element (not of the `img`), so
it never runs. -/
def canvasFiresLoad : Bool := false

/-- The pixel dimensions of the mask canvas buffer once the image is
loaded, following the JSX: the `width`/`height` attributes come from the
container's client size, and the natural-size `onLoad` handler would
overwrite them with the image's natural dimensions only if the element
it is attached to (the canvas) ever fired a load event. -/
def maskBufferDims (containerW containerH : ℕ) (img : ImageInfo) : ℕ × ℕ :=
  if canvasFiresLoad = true then (img.naturalWidth, img.naturalHeight)
  else (containerW, containerH)

/-! ## State invariants -/

/-- The resource invariant of a mounted editor: zoom stays clamped and
the container, canvas, and 2-D context refs stay installed. -/
def GoodState (s : EditorState) : Prop :=
  1/10 ≤ s.zoom ∧ s.zoom ≤ 5 ∧ s.hasContainer = true ∧ s.hasCanvas = true ∧ s.ctx = true

/-- The gesture-flag invariant: the inactive tool's flag is down. -/
def FlagsOK (s : EditorState) : Prop :=
  (s.activeTool = Tool.pan → s.isDrawing = false) ∧
  (s.activeTool = Tool.draw → s.isDragging = false)

lemma goodState_init (rl rt : ℚ) (cb : Bool) : GoodState (initState rl rt cb) := by
  refine ⟨by norm_num [initState], by norm_num [initState], rfl, rfl, rfl⟩

lemma goodState_step (s : EditorState) (h : GoodState s) (e : Event) :
    GoodState (step s e).1 := by
  obtain ⟨h1, h2, h3, h4, h5⟩ := h
  cases e with
  | wheel d cx cy =>
      simp only [step]
      unfold handleWheel
      split
      · exact ⟨h1, h2, h3, h4, h5⟩
      · exact ⟨le_min (le_max_left _ _) (by norm_num), min_le_right _ _, h3, h4, h5⟩
  | mouseDown e =>
      simp only [step]
      unfold handleMouseDown
      repeat' split
      all_goals exact ⟨h1, h2, h3, h4, h5⟩
  | mouseMove e =>
      simp only [step]
      unfold handleMouseMove
      repeat' split
      all_goals exact ⟨h1, h2, h3, h4, h5⟩
  | mouseUp =>
      simp only [step]
      unfold handleMouseUp
      split <;> exact ⟨h1, h2, h3, h4, h5⟩
  | mouseLeave =>
      simp only [step]
      unfold handleMouseUp
      split <;> exact ⟨h1, h2, h3, h4, h5⟩
  | setTool t => exact ⟨h1, h2, h3, h4, h5⟩
  | setBrush b => exact ⟨h1, h2, h3, h4, h5⟩
  | reset =>
      simp only [step]
      unfold resetView
      exact ⟨by norm_num, by norm_num, h3, h4, h5⟩

lemma goodState_run (s : EditorState) (h : GoodState s) (evs : List Event) :
    GoodState (run s evs).1 := by
  induction evs generalizing s with
  | nil => simpa [run] using h
  | cons e es ih => simpa [run] using ih (step s e).1 (goodState_step s h e)

lemma handleMouseMove_zoom (s : EditorState) (e : MouseEv) :
    (handleMouseMove s e).zoom = s.zoom := by
  unfold handleMouseMove
  repeat' split
  all_goals rfl

/-! ## Concrete demo inputs (used by witnesses and counterexamples) -/

/-- A mounted editor with a registered callback, rect origin (0,0). -/
def demoState : EditorState := initState 0 0 true

/-- A pan drag in progress. -/
def demoPanState : EditorState := { demoState with isDragging := true }

/-- A draw stroke in progress. -/
def demoDrawState : EditorState :=
  { demoState with activeTool := Tool.draw, isDrawing := true }

/-- An editor whose canvas ref is gone. -/
def demoNoRefsState : EditorState := { demoState with hasCanvas := false }

/-- An editor with no `onMaskChange` callback registered. -/
def demoNoCallbackState : EditorState := initState 0 0 false

/-- A mounted editor with the Draw tool selected and no gesture active. -/
def demoDrawReady : EditorState := { demoState with activeTool := Tool.draw }

/-- A left-button press on the canvas area. -/
def panDownEv : MouseEv :=
  { button := 0, target := TargetKind.canvasArea, clientX := 5, clientY := 5,
    movementX := 0, movementY := 0 }

/-- A pointer move over the canvas area. -/
def demoMoveEv : MouseEv :=
  { button := 0, target := TargetKind.canvasArea, clientX := 12, clientY := 7,
    movementX := 3, movementY := 4 }

/-- A complete draw gesture: press, move, release. -/
def demoTrace : List Event :=
  [Event.mouseDown panDownEv, Event.mouseMove demoMoveEv, Event.mouseUp]

/-! ## Claim theorems -/

/-- C1 counterexample: a completed Pan gesture (pointer-down with
Tool=Pan, then pointer-up) from the initial state invokes `onMaskChange`
once, not zero times — `handleMouseUp` exports unconditionally. -/
theorem editor_maskChange_fires_on_pan_gesture :
    (initState 0 0 true).activeTool = Tool.pan ∧
    (run (initState 0 0 true) [Event.mouseDown panDownEv, Event.mouseUp]).2.length = 1 :=
  ⟨rfl, rfl⟩

/-- C1 (amended): with the canvas ref and callback present, every
pointer-up and every pointer-leave invokes `onMaskChange` exactly once —
regardless of tool, so also at the end of a Pan gesture — while
pointer-down, pointer-move, wheel, tool/brush changes, and reset invoke
it zero times. -/
theorem editor_maskChange_once_per_pointer_release (s : EditorState)
    (hcan : s.hasCanvas = true) (hcb : s.hasCallback = true) :
    (step s Event.mouseUp).2.length = 1 ∧
    (step s Event.mouseLeave).2.length = 1 ∧
    (∀ e : MouseEv, (step s (Event.mouseDown e)).2 = [] ∧
      (step s (Event.mouseMove e)).2 = []) ∧
    (∀ d cx cy : ℚ, (step s (Event.wheel d cx cy)).2 = []) ∧
    (∀ t : Tool, (step s (Event.setTool t)).2 = []) ∧
    (∀ b : ℚ, (step s (Event.setBrush b)).2 = []) ∧
    (step s Event.reset).2 = [] := by
  refine ⟨?_, ?_, fun e => ⟨rfl, rfl⟩, fun d cx cy => rfl, fun t => rfl, fun b => rfl, rfl⟩ <;>
    simp [step, handleMouseUp, hcan, hcb]

theorem editor_maskChange_once_per_pointer_release_witness :
    (demoState.hasCanvas = true ∧ demoState.hasCallback = true) ∧
    (step demoState Event.mouseUp).2.length = 1 ∧
    (step demoState Event.mouseLeave).2.length = 1 ∧
    (step demoState (Event.mouseDown panDownEv)).2 = [] ∧
    (step demoState (Event.mouseMove demoMoveEv)).2 = [] ∧
    (step demoState (Event.wheel 200 0 0)).2 = [] ∧
    (step demoState (Event.setTool Tool.draw)).2 = [] ∧
    (step demoState (Event.setBrush 30)).2 = [] ∧
    (step demoState Event.reset).2 = [] := by
  have h := editor_maskChange_once_per_pointer_release demoState rfl rfl
  exact ⟨⟨rfl, rfl⟩, h.1, h.2.1, (h.2.2.1 panDownEv).1, (h.2.2.1 demoMoveEv).2,
    h.2.2.2.1 200 0 0, h.2.2.2.2.1 Tool.draw, h.2.2.2.2.2.1 30, h.2.2.2.2.2.2⟩

/-- C2: the mask canvas buffer is sized from the container's client
size, not the image's natural dimensions — the natural-size `onLoad`
handler sits on the canvas element, which never fires a load event.
Evaluated at an 800×600 container showing a 400×300 image. -/
theorem editor_mask_buffer_sized_to_container :
    maskBufferDims 800 600 ⟨400, 300⟩ = (800, 600) ∧
    ((800 : ℕ), (600 : ℕ)) ≠ ((400 : ℕ), (300 : ℕ)) :=
  ⟨rfl, by decide⟩

/-- C3: cursor-anchored zoom — for any wheel event from a state with a
container ref and zoom in [0.1, 5.0], the image-space coordinate under
the cursor is unchanged by the wheel handler. -/
theorem editor_wheel_cursor_anchored (s : EditorState) (hc : s.hasContainer = true)
    (hlo : 1/10 ≤ s.zoom) (hhi : s.zoom ≤ 5) (d cx cy : ℚ) :
    getCanvasCoordinates (handleWheel s d cx cy) cx cy = getCanvasCoordinates s cx cy := by
  have hz : s.zoom ≠ 0 := ne_of_gt (lt_of_lt_of_le (by norm_num) hlo)
  have hz' : (min (max (1/10) (s.zoom + -d / 1000)) 5 : ℚ) ≠ 0 :=
    ne_of_gt (lt_of_lt_of_le (by norm_num)
      (le_min (le_max_left _ _) (by norm_num)))
  by_cases hcan : s.hasCanvas = true
  · unfold handleWheel getCanvasCoordinates
    rw [one_div] at hz'
    simp [hc, hcan, Vec2.mk.injEq]
    constructor <;> (field_simp; ring)
  · unfold handleWheel getCanvasCoordinates
    simp [hc, hcan]

theorem editor_wheel_cursor_anchored_witness :
    (demoState.hasContainer = true ∧ 1/10 ≤ demoState.zoom ∧ demoState.zoom ≤ 5) ∧
    getCanvasCoordinates (handleWheel demoState (-200) 200 150) 200 150 =
      getCanvasCoordinates demoState 200 150 :=
  ⟨⟨rfl, by norm_num [demoState, initState], by norm_num [demoState, initState]⟩,
    editor_wheel_cursor_anchored demoState rfl (by norm_num [demoState, initState])
      (by norm_num [demoState, initState]) (-200) 200 150⟩

/-- C4: `getCanvasCoordinates` inverts the render transform
`translate(position) scale(zoom)` — applying the forward transform to
the transformed point recovers the container-relative screen point. -/
theorem editor_screenToImage_inverse_of_render_transform (s : EditorState)
    (hcan : s.hasCanvas = true) (hc : s.hasContainer = true)
    (hlo : 1/10 ≤ s.zoom) (hhi : s.zoom ≤ 5) (clientX clientY : ℚ) :
    imageToScreen s (getCanvasCoordinates s clientX clientY) =
      ⟨clientX - s.rectLeft, clientY - s.rectTop⟩ := by
  have hz : s.zoom ≠ 0 := ne_of_gt (lt_of_lt_of_le (by norm_num) hlo)
  unfold imageToScreen getCanvasCoordinates
  simp [hcan, hc, Vec2.mk.injEq]
  constructor <;> field_simp

theorem editor_screenToImage_inverse_of_render_transform_witness :
    (demoPanState.hasCanvas = true ∧ demoPanState.hasContainer = true ∧
      1/10 ≤ demoPanState.zoom ∧ demoPanState.zoom ≤ 5) ∧
    imageToScreen demoPanState (getCanvasCoordinates demoPanState 37 (-11)) =
      ⟨37 - demoPanState.rectLeft, -11 - demoPanState.rectTop⟩ :=
  ⟨⟨rfl, rfl, by norm_num [demoPanState, demoState, initState],
      by norm_num [demoPanState, demoState, initState]⟩,
    editor_screenToImage_inverse_of_render_transform demoPanState rfl rfl
      (by norm_num [demoPanState, demoState, initState])
      (by norm_num [demoPanState, demoState, initState]) 37 (-11)⟩

/-- C5: the wheel handler sets zoom to
`min (max 0.1 (zoom - deltaY/1000)) 5`, and along every event sequence
from the initial state the zoom stays inside [0.1, 5.0]. -/
theorem editor_zoom_clamped (s : EditorState) (hc : s.hasContainer = true)
    (d cx cy rl rt : ℚ) (cb : Bool) (evs : List Event) :
    (handleWheel s d cx cy).zoom = min (max (1/10) (s.zoom + -d / 1000)) 5 ∧
    1/10 ≤ (run (initState rl rt cb) evs).1.zoom ∧
    (run (initState rl rt cb) evs).1.zoom ≤ 5 := by
  have hg := goodState_run _ (goodState_init rl rt cb) evs
  refine ⟨?_, hg.1, hg.2.1⟩
  unfold handleWheel
  simp [hc]

theorem editor_zoom_clamped_witness :
    demoState.hasContainer = true ∧
    ((handleWheel demoState 9000 4 4).zoom =
        min (max (1/10) (demoState.zoom + -(9000 : ℚ) / 1000)) 5 ∧
      1/10 ≤ (run (initState 0 0 true) [Event.wheel 9000 4 4]).1.zoom ∧
      (run (initState 0 0 true) [Event.wheel 9000 4 4]).1.zoom ≤ 5) :=
  ⟨rfl, editor_zoom_clamped demoState rfl 9000 4 4 0 0 true [Event.wheel 9000 4 4]⟩

/-- C6: a pointer-move during an active pan drag adds the raw movement
delta to the offset and changes nothing else, and no pointer-move ever
changes the zoom. -/
theorem editor_pan_move_only_offset (s : EditorState) (e : MouseEv)
    (ht : s.activeTool = Tool.pan) (hd : s.isDragging = true)
    (hb : e.target ≠ TargetKind.buttonEl) (hi : e.target ≠ TargetKind.inputEl) :
    handleMouseMove s e =
      { s with position := ⟨s.position.x + e.movementX, s.position.y + e.movementY⟩ } ∧
    (∀ e' : MouseEv, (handleMouseMove s e').zoom = s.zoom) := by
  refine ⟨?_, fun e' => handleMouseMove_zoom s e'⟩
  unfold handleMouseMove
  simp [hb, hi, ht, hd]

theorem editor_pan_move_only_offset_witness :
    (demoPanState.activeTool = Tool.pan ∧ demoPanState.isDragging = true ∧
      demoMoveEv.target ≠ TargetKind.buttonEl ∧ demoMoveEv.target ≠ TargetKind.inputEl) ∧
    handleMouseMove demoPanState demoMoveEv =
      { demoPanState with
          position := ⟨demoPanState.position.x + demoMoveEv.movementX,
                       demoPanState.position.y + demoMoveEv.movementY⟩ } ∧
    (handleMouseMove demoPanState demoMoveEv).zoom = demoPanState.zoom := by
  have h := editor_pan_move_only_offset demoPanState demoMoveEv rfl rfl
    (by decide) (by decide)
  exact ⟨⟨rfl, rfl, by decide, by decide⟩, h.1, h.2 demoMoveEv⟩

/-- C7: from any state reachable from the mounted initial state, the
reset action restores zoom 1 and offset (0,0) and empties the mask
buffer. -/
theorem editor_reset_restores_identity (rl rt : ℚ) (cb : Bool) (evs : List Event) :
    (resetView (run (initState rl rt cb) evs).1).1.zoom = 1 ∧
    (resetView (run (initState rl rt cb) evs).1).1.position = ⟨0, 0⟩ ∧
    (resetView (run (initState rl rt cb) evs).1).1.mask = [] := by
  have hg := goodState_run _ (goodState_init rl rt cb) evs
  refine ⟨rfl, rfl, ?_⟩
  unfold resetView
  simp [hg.2.2.2.1, hg.2.2.2.2]

/-- C8: a pointer-move during an active draw stroke appends exactly one
segment to the mask, from the previous path point to the transformed
cursor point, stroked at line width `brushSize / zoom`. -/
theorem editor_draw_stroke_width (s : EditorState) (e : MouseEv)
    (ht : s.activeTool = Tool.draw) (hd : s.isDrawing = true) (hctx : s.ctx = true)
    (hb : e.target ≠ TargetKind.buttonEl) (hi : e.target ≠ TargetKind.inputEl) :
    (handleMouseMove s e).mask =
      s.mask ++
        [⟨s.pathStart, getCanvasCoordinates s e.clientX e.clientY,
          s.brushSize / s.zoom⟩] := by
  unfold handleMouseMove
  simp [hb, hi, ht, hd, hctx]

theorem editor_draw_stroke_width_witness :
    (demoDrawState.activeTool = Tool.draw ∧ demoDrawState.isDrawing = true ∧
      demoDrawState.ctx = true ∧ demoMoveEv.target ≠ TargetKind.buttonEl ∧
      demoMoveEv.target ≠ TargetKind.inputEl) ∧
    (handleMouseMove demoDrawState demoMoveEv).mask =
      demoDrawState.mask ++
        [⟨demoDrawState.pathStart,
          getCanvasCoordinates demoDrawState demoMoveEv.clientX demoMoveEv.clientY,
          demoDrawState.brushSize / demoDrawState.zoom⟩] :=
  ⟨⟨rfl, rfl, rfl, by decide, by decide⟩,
    editor_draw_stroke_width demoDrawState demoMoveEv rfl rfl rfl
      (by decide) (by decide)⟩

/-- C9: with a missing canvas or container ref the coordinate transform
returns the origin, and with no registered callback the gesture-end
export is a no-op that emits nothing. -/
theorem editor_defensive_guards (s : EditorState) (cx cy : ℚ)
    (h : s.hasCanvas = false ∨ s.hasContainer = false) :
    getCanvasCoordinates s cx cy = ⟨0, 0⟩ ∧
    (∀ s' : EditorState, s'.hasCallback = false → (handleMouseUp s').2 = []) := by
  constructor
  · unfold getCanvasCoordinates
    rw [if_pos h]
  · intro s' h'
    unfold handleMouseUp
    simp [h']

theorem editor_defensive_guards_witness :
    ((demoNoRefsState.hasCanvas = false ∨ demoNoRefsState.hasContainer = false) ∧
      demoNoCallbackState.hasCallback = false) ∧
    getCanvasCoordinates demoNoRefsState 3 4 = ⟨0, 0⟩ ∧
    (handleMouseUp demoNoCallbackState).2 = [] := by
  have h := editor_defensive_guards demoNoRefsState 3 4 (Or.inl rfl)
  exact ⟨⟨Or.inl rfl, rfl⟩, h.1, h.2 demoNoCallbackState rfl⟩

lemma flagsOK_step (s : EditorState) (h : FlagsOK s) (e : Event) (hp : PointerEvent e) :
    FlagsOK (step s e).1 := by
  obtain ⟨hpan, hdraw⟩ := h
  cases e with
  | wheel d cx cy => exact hp.elim
  | setTool t => exact hp.elim
  | setBrush b => exact hp.elim
  | reset => exact hp.elim
  | mouseUp =>
      simp only [step]
      unfold handleMouseUp
      split <;> exact ⟨fun _ => rfl, fun _ => rfl⟩
  | mouseLeave =>
      simp only [step]
      unfold handleMouseUp
      split <;> exact ⟨fun _ => rfl, fun _ => rfl⟩
  | mouseMove e =>
      simp only [step]
      unfold handleMouseMove
      repeat' split
      all_goals exact ⟨hpan, hdraw⟩
  | mouseDown e =>
      simp only [step]
      unfold handleMouseDown
      split
      · exact ⟨hpan, hdraw⟩
      · split
        next ht =>
          refine ⟨fun _ => hpan ht, fun hcontra => ?_⟩
          rw [ht] at hcontra
          exact absurd hcontra (by decide)
        next ht =>
          split
          · exact ⟨hpan, hdraw⟩
          · refine ⟨fun hcontra => ?_, fun _ => hdraw ht⟩
            rw [ht] at hcontra
            exact absurd hcontra (by decide)

lemma flagsOK_run (s : EditorState) (h : FlagsOK s) (evs : List Event)
    (hp : ∀ e ∈ evs, PointerEvent e) : FlagsOK (run s evs).1 := by
  induction evs generalizing s with
  | nil => simpa [run] using h
  | cons e es ih =>
      have h1 := flagsOK_step s h e (hp e (List.mem_cons_self e es))
      simpa [run] using ih (step s e).1 h1 (fun e' he' => hp e' (List.mem_cons_of_mem e he'))

/-- C10: along any sequence of the four pointer events from a state with
both gesture flags down, the drag and draw flags are never both up, and
any pointer-up or pointer-leave leaves both flags down. -/
theorem editor_gesture_flags_invariant (s0 : EditorState)
    (h1 : s0.isDragging = false) (h2 : s0.isDrawing = false)
    (evs : List Event) (hp : ∀ e ∈ evs, PointerEvent e) :
    ¬((run s0 evs).1.isDragging = true ∧ (run s0 evs).1.isDrawing = true) ∧
    (∀ s : EditorState, (handleMouseUp s).1.isDragging = false ∧
      (handleMouseUp s).1.isDrawing = false) := by
  have hR := flagsOK_run s0 ⟨fun _ => h2, fun _ => h1⟩ evs hp
  constructor
  · rintro ⟨hd, hw⟩
    cases htool : (run s0 evs).1.activeTool with
    | pan => rw [hR.1 htool] at hw; exact absurd hw (by decide)
    | draw => rw [hR.2 htool] at hd; exact absurd hd (by decide)
  · intro s
    unfold handleMouseUp
    split <;> exact ⟨rfl, rfl⟩

theorem editor_gesture_flags_invariant_witness :
    (demoDrawReady.isDragging = false ∧ demoDrawReady.isDrawing = false ∧
      (∀ e ∈ demoTrace, PointerEvent e)) ∧
    ¬((run demoDrawReady demoTrace).1.isDragging = true ∧
        (run demoDrawReady demoTrace).1.isDrawing = true) ∧
    (handleMouseUp demoDrawReady).1.isDragging = false ∧
    (handleMouseUp demoDrawReady).1.isDrawing = false := by
  have hp : ∀ e ∈ demoTrace, PointerEvent e := by
    intro e he
    simp only [demoTrace, List.mem_cons, List.not_mem_nil, or_false] at he
    rcases he with rfl | rfl | rfl <;> trivial
  have h := editor_gesture_flags_invariant demoDrawReady rfl rfl demoTrace hp
  exact ⟨⟨rfl, rfl, hp⟩, h.1, h.2 demoDrawReady⟩
